import Mathlib

/-!
Verification development for the passport-data extractor repository
(`passporteye_pure_extractor.py`, `passporteye_full_extractor.py`,
`passporteye_simplified_extractor.py`, `passporteye_extractor.py`).

The heuristic field-recovery pipeline is embedded shallowly:

* The regex pattern catalog of `extract_issue_date_from_text` is modelled by
  an executable backtracking matcher (`mtch`).  Every repetition operator in
  the source patterns applies to a single character class, so greedy
  backtracking is modelled by enumerating repeat counts in decreasing order;
  alternation and sequencing enumerate results in Python's backtracking
  priority order, and `findAllCh` scans left to right taking the
  highest-priority match at the leftmost matching position and resuming after
  it, which is exactly `re.findall` semantics for these patterns.  All
  `re.findall` calls in the source pass `re.IGNORECASE`; character classes
  and literals are therefore compared case-insensitively (ASCII, the only
  characters occurring in patterns and OCR text handled by the code).
* Python values are modelled as: `str` by `String`, tuples-of-groups by
  `PyMatch` (mirroring `re.findall` returning plain strings for one-group
  patterns and tuples otherwise), file system by `FS := String → Option Img`,
  image pixel data abstractly by `Img` (the claims under study depend only on
  which files exist and whether a file holds the original image or a crop,
  never on pixel geometry), and external capabilities (PassportEye `read_mrz`,
  PIL `Image.open`, `pytesseract.image_to_string`) by explicit outcome
  oracles (`CallOutcome`) that either return a value or raise.
-/

/-! ### ASCII character helpers (case-insensitive matching, `re.IGNORECASE`) -/

/-- ASCII lower-casing on code points: the effect of Python's case-insensitive
comparison for the ASCII-only patterns in the source. -/
def lowerNat (n : Nat) : Nat := if 65 ≤ n && n ≤ 90 then n + 32 else n

/-- Case-insensitive character equality (ASCII), modelling `re.IGNORECASE`. -/
def ciEq (a b : Char) : Bool := lowerNat a.toNat == lowerNat b.toNat

/-- `\d` -/
def isDigitC (c : Char) : Bool := 48 ≤ c.toNat && c.toNat ≤ 57

/-- `[A-Z]` / `[a-z]` under `re.IGNORECASE`: any ASCII letter. -/
def isAlphaC (c : Char) : Bool :=
  (65 ≤ c.toNat && c.toNat ≤ 90) || (97 ≤ c.toNat && c.toNat ≤ 122)

/-- Python `\s`: space, tab, newline, carriage return, vertical tab, form feed. -/
def isSpaceC (c : Char) : Bool :=
  c.toNat == 32 || c.toNat == 9 || c.toNat == 10 || c.toNat == 13 ||
  c.toNat == 11 || c.toNat == 12

/-- `[Ss3]` under IGNORECASE. -/
def isS3 (c : Char) : Bool := ciEq c 's' || c == '3'

/-- `[ys]` under IGNORECASE. -/
def isYS (c : Char) : Bool := ciEq c 'y' || ciEq c 's'

/-- `[:\s]` -/
def isColonSpace (c : Char) : Bool := c == ':' || isSpaceC c

/-- `[\/\\]` -/
def isSlashC (c : Char) : Bool := c == '/' || c == '\\'

/-- `[O0]` under IGNORECASE. -/
def isO0 (c : Char) : Bool := ciEq c 'o' || c == '0'

/-- `[PpRr]` -/
def isPR (c : Char) : Bool := ciEq c 'p' || ciEq c 'r'

/-- `[Tt]` / `[tT]` -/
def isTC (c : Char) : Bool := ciEq c 't'

/-- `[Ss]` -/
def isSC (c : Char) : Bool := ciEq c 's'

/-- `[Ee]` -/
def isEC (c : Char) : Bool := ciEq c 'e'

/-- `[Gg]` -/
def isGC (c : Char) : Bool := ciEq c 'g'

/-! ### Regex abstract syntax

Only the constructs appearing in the source's patterns are represented.
Every `*`, `+`, `{m,n}` in the source patterns applies to a single character
class, which the constructors `starC`/`plusC`/`repC` capture directly. -/

inductive RE where
  | cls (p : Char → Bool)
  | lit (s : List Char)
  | seq (a b : RE)
  | alt (a b : RE)
  | starC (p : Char → Bool)
  | plusC (p : Char → Bool)
  | repC (p : Char → Bool) (lo hi : Nat)
  | grp (a : RE)

/-- Case-insensitive literal-prefix test; returns the number of consumed
characters. -/
def litPrefix : List Char → List Char → Option Nat
  | [], _ => some 0
  | _ :: _, [] => none
  | p :: ps, c :: cs => if ciEq p c then (litPrefix ps cs).map (· + 1) else none

/-- Length of the maximal run of characters satisfying `p`. -/
def runLen (p : Char → Bool) : List Char → Nat
  | [] => 0
  | c :: rest => if p c then runLen p rest + 1 else 0

/-- `[hi, hi-1, …, lo]` (empty when `hi < lo`): greedy repeat counts in
backtracking priority order. -/
def descRange (lo hi : Nat) : List Nat :=
  (List.range (hi + 1 - lo)).map (fun k => hi - k)

/-- All ways a regex can match a prefix of the input, as
(captured groups, consumed length) pairs, listed in Python's backtracking
priority order (greedy repeats longest-first, alternation left-first). -/
def mtch : RE → List Char → List (List (List Char) × Nat)
  | .cls p, s =>
    match s with
    | [] => []
    | c :: _ => if p c then [([], 1)] else []
  | .lit l, s =>
    match litPrefix l s with
    | some n => [([], n)]
    | none => []
  | .seq a b, s =>
    (mtch a s).flatMap fun pr =>
      (mtch b (s.drop pr.2)).map fun pr2 => (pr.1 ++ pr2.1, pr.2 + pr2.2)
  | .alt a b, s => mtch a s ++ mtch b s
  | .starC p, s => (descRange 0 (runLen p s)).map (fun n => ([], n))
  | .plusC p, s => (descRange 1 (runLen p s)).map (fun n => ([], n))
  | .repC p lo hi, s =>
    (descRange lo (min (runLen p s) hi)).map (fun n => ([], n))
  | .grp a, s => (mtch a s).map fun pr => (pr.1 ++ [s.take pr.2], pr.2)

/-- Scanning worker for `re.findall`: at the leftmost matching position take
the highest-priority match, record its groups, and resume after the matched
text (advancing one character after an empty match).  The fuel argument is
instantiated with the input length, which bounds the number of scan steps
(every step discards at least one character). -/
def findAllAux (r : RE) : Nat → List Char → List (List (List Char))
  | 0, _ => []
  | _, [] => []
  | fuel + 1, c :: rest =>
    match mtch r (c :: rest) with
    | [] => findAllAux r fuel rest
    | pr :: _ => pr.1 :: findAllAux r fuel (List.drop (pr.2 - 1) rest)

/-- `re.findall` scan over a character list. -/
def findAllCh (r : RE) (s : List Char) : List (List (List Char)) :=
  findAllAux r s.length s

/-- A `re.findall` element: a plain string when the pattern has exactly one
group, a tuple of group strings otherwise. -/
inductive PyMatch where
  | pstr (s : String)
  | tup (gs : List String)
deriving DecidableEq

/-- Convert one match's captured groups into the value `re.findall` yields. -/
def toPyMatch (caps : List (List Char)) : PyMatch :=
  match caps with
  | [g] => .pstr (String.mk g)
  | gs => .tup (gs.map String.mk)

/-- `re.findall(pattern, text, re.IGNORECASE)` -/
def findallP (r : RE) (s : String) : List PyMatch :=
  (findAllCh r s.data).map toPyMatch

/-- Python `len(match)`: tuple arity, or string length for one-group matches. -/
def pyLen : PyMatch → Nat
  | .pstr s => s.length
  | .tup gs => gs.length

/-- Python `match[k]`: group `k` of a tuple, or the `k`-th character of a
plain-string match (totalised with `""`; every source access is guarded). -/
def pyIdx : PyMatch → Nat → String
  | .pstr s, k =>
    match s.data.get? k with
    | some c => String.mk [c]
    | none => ""
  | .tup gs, k => gs.getD k ""

/-- Python `isinstance(match, tuple)`. -/
def pyIsTuple : PyMatch → Bool
  | .tup _ => true
  | .pstr _ => false

/-- The match itself when it is a plain string (`match` in
`match[0] if isinstance(match, tuple) else match`). -/
def pyWhole : PyMatch → String
  | .pstr s => s
  | .tup _ => ""

/-! ### Date normalisation helpers shared by the extractor variants -/

/-- Python `str.zfill(2)`. -/
def pyZfill2 (s : String) : String :=
  if s.length ≥ 2 then s else String.mk (List.replicate (2 - s.length) '0') ++ s

/-- `int(s)` for a digit string. -/
def strToNat (s : String) : Nat :=
  s.data.foldl (fun acc c => acc * 10 + (c.toNat - 48)) 0

/-- ASCII `str.upper()`. -/
def pyUpper (s : String) : String :=
  String.mk (s.data.map fun c =>
    if 97 ≤ c.toNat && c.toNat ≤ 122 then Char.ofNat (c.toNat - 32) else c)

/-- The `month_map` dictionary. -/
def monthMap (m : String) : Option String :=
  if m = "JAN" then some "01" else if m = "FEB" then some "02"
  else if m = "MAR" then some "03" else if m = "APR" then some "04"
  else if m = "MAY" then some "05" else if m = "JUN" then some "06"
  else if m = "JUL" then some "07" else if m = "AUG" then some "08"
  else if m = "SEP" then some "09" else if m = "OCT" then some "10"
  else if m = "NOV" then some "11" else if m = "DEC" then some "12"
  else none

/-- The repeated inline two-digit-year windowing block
(`if len(year) == 2: year_num = int(year); if year_num <= T: "20"+year else
"19"+year`), parameterised by the threshold `T` used at each source call site
(50 in the pure/simplified variants everywhere; 30 in the full variant's
standard branches, 50 in its fragmented branches). -/
def windowYear (threshold : Nat) (year : String) : String :=
  if year.length = 2 then
    if strToNat year ≤ threshold then "20" ++ year else "19" ++ year
  else year

/-- `f"{year}-{month}-{day}"` -/
def fmtDate (year month day : String) : String :=
  year ++ "-" ++ month ++ "-" ++ day

/-! ### Per-branch match handlers

The Python loops dispatch on the pattern index `i`; each branch of that
dispatch is translated as a handler function, and each pattern is paired with
the handler its index selects (the tagged-variant reading of the positional
`if i < N` arithmetic).  A handler returning `none` corresponds to the branch
falling through to the next match without a `return`. -/

/-- The `i < 2` branch of the pure/simplified variants and the `i < 2` /
`i >= 6` branches of the full variant (standard month-name triples), with the
windowing threshold of that call site. -/
def handleStandard (threshold : Nat) (m : PyMatch) : Option String :=
  if pyLen m ≥ 3 then
    let day := pyZfill2 (pyIdx m 0)
    let monthStr := pyUpper (pyIdx m 1)
    let year := pyIdx m 2
    match monthMap monthStr with
    | some month => some (fmtDate (windowYear threshold year) month day)
    | none => none
  else none

/-- The `i == 4` branch of the pure/simplified variants and the `i == 2`
branch of the full variant ("Gsseryserr22" year-only pattern: assumed day 03,
assumed month 09). -/
def handleGss (threshold : Nat) (m : PyMatch) : Option String :=
  if pyLen m ≥ 1 then
    let day := "03"
    let year := if pyIsTuple m then pyIdx m 0 else pyWhole m
    let month := "09"
    some (fmtDate (windowYear threshold year) month day)
  else none

/-- The final `else` branch of the pure/simplified variants, reached by every
pattern index other than 0, 1 and 4 — including the standard-format patterns
at indices 2 and 3, whose day is therefore forced to "03" (`i > 4` is false)
and whose captured month name lands in the `year` slot.  `iGt4` records the
branch's `if i > 4` test for the given pattern index. -/
def handleElsePure (iGt4 : Bool) (m : PyMatch) : Option String :=
  if pyLen m ≥ 2 then
    let day := if iGt4 then pyZfill2 ("0" ++ pyIdx m 0) else "03"
    let year := if pyLen m > 1 then pyIdx m 1 else pyIdx m 0
    let month := "09"
    some (fmtDate (windowYear 50 year) month day)
  else none

/-- The `elif len(match) >= 2` fragmented branch of the full variant
(indices 3–5). -/
def handleFragFull (m : PyMatch) : Option String :=
  if pyLen m ≥ 2 then
    let day := pyZfill2 ("0" ++ pyIdx m 0)
    let year := pyIdx m 1
    let month := "09"
    some (fmtDate (windowYear 50 year) month day)
  else none

/-! ### The pattern catalog -/

/-- Sequence a list of regex pieces. -/
def seqOf (x : RE) (xs : List RE) : RE := xs.foldl RE.seq x

/-- Left-to-right alternation of a nonempty list. -/
def altOf (x : RE) (xs : List RE) : RE := xs.foldl RE.alt x

/-- Case-insensitive literal. -/
def litS (s : String) : RE := .lit s.data

/-- `(SEP|JAN|FEB|MAR|APR|MAY|JUN|JUL|AUG|OCT|NOV|DEC)` (inner alternation,
without the capture). -/
def monthAlt : RE :=
  altOf (litS "SEP")
    [litS "JAN", litS "FEB", litS "MAR", litS "APR", litS "MAY", litS "JUN",
     litS "JUL", litS "AUG", litS "OCT", litS "NOV", litS "DEC"]

/-- `(\d{1,2})\s+(MONTH)\s*/\s*[A-Z]{3,4}\s+(\d{2})` — "03 SEP /SEPT 22". -/
def reBilingual0 : RE :=
  seqOf (.grp (.repC isDigitC 1 2))
    [.plusC isSpaceC, .grp monthAlt, .starC isSpaceC, litS "/",
     .starC isSpaceC, .repC isAlphaC 3 4, .plusC isSpaceC,
     .grp (.repC isDigitC 2 2)]

/-- `(\d{1,2})\s+(MONTH)\s+/\s*[A-Z]{3,4}\s+(\d{2})` — "03 SEP / SEPT 22". -/
def reBilingual1 : RE :=
  seqOf (.grp (.repC isDigitC 1 2))
    [.plusC isSpaceC, .grp monthAlt, .plusC isSpaceC, litS "/",
     .starC isSpaceC, .repC isAlphaC 3 4, .plusC isSpaceC,
     .grp (.repC isDigitC 2 2)]

/-- `(?i)date\s+of\s+issue[:\s]*(\d{1,2})\s+([A-Z]{3,4})\s+(\d{2,4})`. -/
def reDateOfIssue : RE :=
  seqOf (litS "date")
    [.plusC isSpaceC, litS "of", .plusC isSpaceC, litS "issue",
     .starC isColonSpace, .grp (.repC isDigitC 1 2), .plusC isSpaceC,
     .grp (.repC isAlphaC 3 4), .plusC isSpaceC, .grp (.repC isDigitC 2 4)]

/-- `(\d{1,2})\s+([A-Z]{3,4})\s+(\d{2,4})` — "01 JAN 22". -/
def reStandard : RE :=
  seqOf (.grp (.repC isDigitC 1 2))
    [.plusC isSpaceC, .grp (.repC isAlphaC 3 4), .plusC isSpaceC,
     .grp (.repC isDigitC 2 4)]

/-- `[Gg][Ss3]*[Ss3]*er[ys]*[a-z]*er[ys]*[a-z]*(\d{2})` — "Gsseryserr22". -/
def reGss : RE :=
  seqOf (.cls isGC)
    [.starC isS3, .starC isS3, litS "er", .starC isYS, .starC isAlphaC,
     litS "er", .starC isYS, .starC isAlphaC, .grp (.repC isDigitC 2 2)]

/-- `[O0](\d)\s*[Ss]er[ys]*[a-z]*[Ss]ee[tT]*\s*(\d{2})` — "O3SersseeT32". -/
def reFrag1 : RE :=
  seqOf (.cls isO0)
    [.grp (.cls isDigitC), .starC isSpaceC, .cls isSC, litS "er",
     .starC isYS, .starC isAlphaC, .cls isSC, litS "ee", .starC isTC,
     .starC isSpaceC, .grp (.repC isDigitC 2 2)]

/-- `[O0](\d)\s*[Ss][Ee][PpRr]\s*[\/\\]*\s*[Ss][Ee][PpRr][Tt]*\s*(\d{2})`. -/
def reFrag2 : RE :=
  seqOf (.cls isO0)
    [.grp (.cls isDigitC), .starC isSpaceC, .cls isSC, .cls isEC, .cls isPR,
     .starC isSpaceC, .starC isSlashC, .starC isSpaceC, .cls isSC, .cls isEC,
     .cls isPR, .starC isTC, .starC isSpaceC, .grp (.repC isDigitC 2 2)]

/-- `[O0](\d)\s*[Ss]er[a-z]*[Ss]eer\s*(\d{2})` — "O3Serfseer32"
(full variant only). -/
def reFrag3 : RE :=
  seqOf (.cls isO0)
    [.grp (.cls isDigitC), .starC isSpaceC, .cls isSC, litS "er",
     .starC isAlphaC, .cls isSC, litS "eer", .starC isSpaceC,
     .grp (.repC isDigitC 2 2)]

/-- A pattern together with the handler the loop's index dispatch selects
for it. -/
structure PatternEntry where
  re : RE
  handler : PyMatch → Option String

/-- The inner `for match in matches` loop: first match whose branch returns. -/
def runEntry (e : PatternEntry) (s : String) : Option String :=
  (findallP e.re s).findSome? e.handler

/-- The outer `for i, pattern in enumerate(patterns)` loop: first pattern
producing a result wins; later patterns are tried only when every earlier
pattern produced nothing anywhere in the text. -/
def cascade : List PatternEntry → String → Option String
  | [], _ => none
  | e :: es, s =>
    match runEntry e s with
    | some d => some d
    | none => cascade es s

/-- `patterns` of `passporteye_pure_extractor.extract_issue_date_from_text`
(and, verbatim, of the simplified variant), each paired with the branch its
index reaches: indices 0–1 → standard (threshold 50), index 4 → the
"Gsseryserr" special case, all other indices → the final `else` branch
(with its `i > 4` day test). -/
def purePatterns : List PatternEntry :=
  [⟨reBilingual0, handleStandard 50⟩,
   ⟨reBilingual1, handleStandard 50⟩,
   ⟨reDateOfIssue, handleElsePure false⟩,
   ⟨reStandard, handleElsePure false⟩,
   ⟨reGss, handleGss 50⟩,
   ⟨reFrag1, handleElsePure true⟩,
   ⟨reFrag2, handleElsePure true⟩]

/-- `extract_issue_date_from_text` of `passporteye_pure_extractor.py`. -/
def extract_issue_date_from_text_pure (text : String) : Option String :=
  cascade purePatterns text

/-- `extract_issue_date_from_text` of `passporteye_simplified_extractor.py`
(the function body is textually identical to the pure variant's). -/
def extract_issue_date_from_text_simplified (text : String) : Option String :=
  cascade purePatterns text

/-- `patterns` of `passporteye_full_extractor.extract_issue_date_from_text`:
bilingual standard patterns first (windowed at 30), then the fragmented
patterns (windowed at 50), then the labelled/plain standard patterns
(windowed at 30). -/
def fullPatterns : List PatternEntry :=
  [⟨reBilingual0, handleStandard 30⟩,
   ⟨reBilingual1, handleStandard 30⟩,
   ⟨reGss, handleGss 50⟩,
   ⟨reFrag1, handleFragFull⟩,
   ⟨reFrag2, handleFragFull⟩,
   ⟨reFrag3, handleFragFull⟩,
   ⟨reDateOfIssue, handleStandard 30⟩,
   ⟨reStandard, handleStandard 30⟩]

/-- `extract_issue_date_from_text` of `passporteye_full_extractor.py`. -/
def extract_issue_date_from_text_full (text : String) : Option String :=
  cascade fullPatterns text

/-! ### File system, images and external capabilities -/

/-- Image pixel data, abstracted: either an original file's content or the
bottom-25% MRZ-band crop of some content (`image.crop((0, int(height*0.75),
width, height))`).  The claims under study depend only on which files exist
and whether a file holds original or cropped content, never on geometry. -/
inductive Img where
  | file (id : Nat)
  | cropBottom (i : Img)
deriving DecidableEq

/-- The file system: a map from paths to image contents. -/
def FS := String → Option Img

/-- Write (`save`) or delete (`os.remove`) at a path. -/
def fsSet (fs : FS) (p : String) (v : Option Img) : FS :=
  fun q => if q = p then v else fs q

/-- Outcome of invoking an external capability: normal return or a raised
exception. -/
inductive CallOutcome (α : Type) where
  | ret (a : α)
  | exn (msg : String)
deriving DecidableEq

/-- The `to_dict()` view of a PassportEye MRZ record; each field is the
`mrz_data.get(key, "")` value. -/
structure MrzData where
  type : String
  country : String
  surname : String
  names : String
  number : String
  nationality : String
  date_of_birth : String
  sex : String
  expiration_date : String
  personal_number : String
deriving DecidableEq

/-- A PassportEye MRZ record: validity flag, the optional `mrz_code`
attribute (`hasattr(mrz, 'mrz_code')`), and the dictionary fields. -/
structure Mrz where
  valid : Bool
  mrz_code : Option String
  data : MrzData
deriving DecidableEq

/-- Outcome of the retried `read_mrz` call on the cropped MRZ band. -/
inductive RetryOutcome where
  | found (m : Mrz)
  | absent
  | raises (msg : String)
deriving DecidableEq

/-- Worker for `str.replace('.png', '_temp_mrz.png')`: substitute every
non-overlapping occurrence of ".png", scanning left to right.  The fuel is
instantiated with the input length, which bounds the number of steps (every
step discards at least one character). -/
def pyReplaceAux : Nat → List Char → List Char
  | 0, s => s
  | _, [] => []
  | fuel + 1, c :: rest =>
    if List.isPrefixOf ['.', 'p', 'n', 'g'] (c :: rest) then
      "_temp_mrz.png".data ++ pyReplaceAux fuel (List.drop 3 rest)
    else c :: pyReplaceAux fuel rest

/-- `image_path.replace('.png', '_temp_mrz.png')`: Python `str.replace`
substitutes every non-overlapping occurrence of ".png" — not just a trailing
extension. -/
def pyReplacePng (s : List Char) : List Char := pyReplaceAux s.length s

/-- The transient crop path computed by the MRZ fallback. -/
def tempMrzPath (image_path : String) : String :=
  String.mk (pyReplacePng image_path.data)

/-- `".png" occurs nowhere in the character list`. -/
def pngFree : List Char → Bool
  | [] => true
  | c :: rest => !(List.isPrefixOf ['.', 'p', 'n', 'g'] (c :: rest)) && pngFree rest

/-- `path ends with ".png"`. -/
def endsWithPng (s : String) : Bool :=
  List.isSuffixOf ['.', 'p', 'n', 'g'] s.data

/-- The MRZ cropped-band fallback block of `extract_pure_passport_data`
(lines 160–180; the simplified variant's block, lines 121–138, is the same
code): open the image (raising when the path is absent, swallowed by the
enclosing `except`), crop the bottom 25%, save it at the computed temp path,
retry `read_mrz` on it, and remove the temp file only when the retried read
returns — the `except` clause swallows a raising retry *before* the cleanup
statement runs, so no deletion happens on that path. -/
def mrzFallback (fs : FS) (image_path : String) (retry : RetryOutcome) :
    FS × Option Mrz :=
  match fs image_path with
  | none => (fs, none)
  | some img =>
    let temp := tempMrzPath image_path
    let fs1 := fsSet fs temp (some (Img.cropBottom img))
    match retry with
    | .raises _ => (fs1, none)
    | .absent => (fsSet fs1 temp none, none)
    | .found m => (fsSet fs1 temp none, some m)

/-- `read_mrz` on the full image, then the cropped-band fallback if it
returned `None` (the `if mrz is None:` block). -/
def resolveMrz (fs : FS) (image_path : String) (m0 : Option Mrz)
    (retry : RetryOutcome) : FS × Option Mrz :=
  match m0 with
  | some m => (fs, some m)
  | none => mrzFallback fs image_path retry

/-! ### Region sampling and candidate arbitration (pure variant) -/

/-- Python `str.strip()`. -/
def pyStrip (s : String) : String :=
  String.mk (((s.data.dropWhile isSpaceC).reverse.dropWhile isSpaceC).reverse)

/-- One `region_info` record: `{"region": …, "text": text.strip()[:200],
"date": …}`. -/
structure RegionInfo where
  region : String
  text : String
  date : Option String
deriving DecidableEq

/-- Per-region OCR outcomes (crop + `pytesseract.image_to_string`, whose
exceptions the per-region `except … continue` swallows), for the three
regions in the `regions` dictionary's order. -/
structure RegionOutcomes where
  upper_middle : CallOutcome String
  left_side : CallOutcome String
  right_side : CallOutcome String
deriving DecidableEq

/-- `extract_issue_date_from_image_regions`: iterate the regions in
dictionary order; a raising region is skipped (`continue`); a returned text
contributes one `region_info` record *whether or not a date was found*
(both branches of `if issue_date:` append the record). -/
def extract_issue_date_from_image_regions (openOutcome : CallOutcome Unit)
    (ro : RegionOutcomes) : List RegionInfo :=
  match openOutcome with
  | .exn _ => []
  | .ret _ =>
    [("upper_middle", ro.upper_middle), ("left_side", ro.left_side),
     ("right_side", ro.right_side)].filterMap fun pr =>
      match pr.2 with
      | .exn _ => none
      | .ret text =>
        some ⟨pr.1, String.mk ((pyStrip text).data.take 200),
              extract_issue_date_from_text_pure text⟩

/-- The arbitration loop of `extract_pure_passport_data` (lines 228–240):
first candidate labelled `upper_middle` if any, else the first candidate. -/
def bestCandidate (cands : List RegionInfo) : Option RegionInfo :=
  match cands.find? (fun c => c.region == "upper_middle") with
  | some c => some c
  | none => cands.head?

/-! ### Result records -/

/-- The `extracted_data` dictionary. -/
structure ExtractedData where
  documentType : String := ""
  issuingCountry : String := ""
  surname : String := ""
  givenNames : String := ""
  passportNumber : String := ""
  nationality : String := ""
  dateOfBirth : String := ""
  gender : String := ""
  expiryDate : String := ""
  personalNumber : String := ""
  issueDate : Option String := none
deriving DecidableEq

/-- The `extracted_data` dict built from an MRZ record (the `result.update`
block; it carries no `issueDate` key at that point). -/
def extractedFromMrz (d : MrzData) : ExtractedData :=
  { documentType := d.type, issuingCountry := d.country, surname := d.surname,
    givenNames := d.names, passportNumber := d.number,
    nationality := d.nationality, dateOfBirth := d.date_of_birth,
    gender := d.sex, expiryDate := d.expiration_date,
    personalNumber := d.personal_number, issueDate := none }

/-- `mrz.mrz_code.strip().split('\n')` when the attribute exists. -/
def mrzLines (m : Mrz) (dflt : List String) : List String :=
  match m.mrz_code with
  | some c => (pyStrip c).splitOn "\n"
  | none => dflt

/-- `0.95 if mrz.valid else 0.75` (modelled in exact rationals; the claims
depend only on these values being nonzero). -/
def mrzConfidence (m : Mrz) : Rat := if m.valid then 95 / 100 else 75 / 100

/-- The result record of `extract_pure_passport_data`.  The exception path
returns a dict with only `success`/`error`/`confidence`/`extraction_method`
keys; it is modelled with the remaining fields at their initial values. -/
structure PureResult where
  success : Bool
  confidence : Rat
  valid : Bool
  raw_text : String
  extracted_data : ExtractedData
  issue_date : Option String
  issue_date_candidates : List RegionInfo
  extraction_method : String
  mrz_lines : List String
  error : Option String
deriving DecidableEq

/-- The initial `result` dict of `extract_pure_passport_data`. -/
def pureInit : PureResult :=
  { success := false, confidence := 0, valid := false, raw_text := "",
    extracted_data := {}, issue_date := none, issue_date_candidates := [],
    extraction_method := "pure_passporteye", mrz_lines := [], error := none }

/-- The `if mrz is not None:` update block of `extract_pure_passport_data`. -/
def applyMrzPure (r : PureResult) (m : Mrz) : PureResult :=
  { r with
    success := true
    confidence := mrzConfidence m
    valid := m.valid
    raw_text := (m.mrz_code.getD "")
    extracted_data := extractedFromMrz m.data
    mrz_lines := mrzLines m r.mrz_lines }

/-- External-capability outcomes consumed by one run of
`extract_pure_passport_data`. -/
structure PureEnv where
  mrzFull : CallOutcome (Option Mrz)
  retry : RetryOutcome
  regionsOpen : CallOutcome Unit
  regions : RegionOutcomes

/-- `extract_pure_passport_data`: primary full-image `read_mrz` (a raise is
caught by the outer `except`, yielding the error dict), cropped-band fallback
when it returned `None`, MRZ merge, region sampling, and candidate
arbitration (which assigns `best_candidate["date"]` to `issue_date` even when
that date is `None`). -/
def extract_pure_passport_data (fs : FS) (image_path : String)
    (env : PureEnv) : FS × PureResult :=
  match env.mrzFull with
  | .exn msg =>
    (fs, { pureInit with
           error := some ("Pure PassportEye extraction failed: " ++ msg) })
  | .ret m0 =>
    let rm := resolveMrz fs image_path m0 env.retry
    let withMrz :=
      match rm.2 with
      | none => pureInit
      | some m => applyMrzPure pureInit m
    let cands := extract_issue_date_from_image_regions env.regionsOpen env.regions
    let r1 := { withMrz with issue_date_candidates := cands }
    let r2 :=
      match bestCandidate cands with
      | some b =>
        { r1 with
          issue_date := b.date
          extracted_data := { r1.extracted_data with issueDate := b.date } }
      | none => r1
    (rm.1, r2)

/-- The result record of `extract_full_passport_data`. -/
structure FullResult where
  success : Bool
  confidence : Rat
  valid : Bool
  raw_text : String
  extracted_data : ExtractedData
  issue_date : Option String
  full_text_ocr : String
  mrz_lines : List String
  ocr_error : Option String
  error : Option String
deriving DecidableEq

/-- The initial `result` dict of `extract_full_passport_data`. -/
def fullInit : FullResult :=
  { success := false, confidence := 0, valid := false, raw_text := "",
    extracted_data := {}, issue_date := none, full_text_ocr := "",
    mrz_lines := [], ocr_error := none, error := none }

/-- The `if mrz is not None:` update block of `extract_full_passport_data`. -/
def applyMrzFull (r : FullResult) (m : Mrz) : FullResult :=
  { r with
    success := true
    confidence := mrzConfidence m
    valid := m.valid
    raw_text := (m.mrz_code.getD "")
    extracted_data := extractedFromMrz m.data
    mrz_lines := mrzLines m r.mrz_lines }

/-- The result of `extract_full_passport_data` after the MRZ phase, before
the OCR phase. -/
def fullMrzBase (m0 : Option Mrz) : FullResult :=
  match m0 with
  | none => fullInit
  | some m => applyMrzFull fullInit m

/-- External-capability outcomes consumed by one run of
`extract_full_passport_data`: the full-image `read_mrz`, `Image.open`, and
one `pytesseract.image_to_string` outcome per OCR configuration. -/
structure FullEnv where
  mrzFull : CallOutcome (Option Mrz)
  imageOpen : CallOutcome Unit
  ocr1 : CallOutcome String
  ocr2 : CallOutcome String
  ocr3 : CallOutcome String

/-- The per-configuration OCR loop: a raising configuration is skipped
(`except: continue`) and the remaining configurations still contribute, in
order. -/
def collectTexts (os : List (CallOutcome String)) : List String :=
  os.filterMap fun o =>
    match o with
    | .ret t => some t
    | .exn _ => none

/-- `extract_full_passport_data`: MRZ phase, then the OCR phase under its own
`try` — `Image.open` raising lands in `except ocr_error`, which records the
message in the result's `ocr_error` field and keeps the MRZ portion
untouched; per-configuration OCR raises are swallowed by the inner loop. -/
def extract_full_passport_data (env : FullEnv) : FullResult :=
  match env.mrzFull with
  | .exn msg =>
    { fullInit with
      error := some ("Full passport extraction failed: " ++ msg) }
  | .ret m0 =>
    let base := fullMrzBase m0
    match env.imageOpen with
    | .exn msg => { base with ocr_error := some msg }
    | .ret _ =>
      let texts := collectTexts [env.ocr1, env.ocr2, env.ocr3]
      let full_text := String.intercalate "\n" texts
      let r1 := { base with full_text_ocr := full_text }
      match extract_issue_date_from_text_full full_text with
      | some d =>
        { r1 with
          issue_date := some d
          extracted_data := { r1.extracted_data with issueDate := some d } }
      | none => r1

/-! ### Process entry points (`main`) -/

/-- What a `main` run prints: the usage-error JSON, the missing-file JSON, or
the extraction-result JSON. -/
inductive MainOut (α : Type) where
  | usage
  | notFound (p : String)
  | payload (r : α)
deriving DecidableEq

namespace PureExtractor

/-- `main` of `passporteye_pure_extractor.py`: argument-count check, file
existence check (both printing an error JSON and exiting 1, before any
MRZ/OCR capability is consulted), then extraction and a normal exit 0. -/
def main (argv : List String) (fs : FS) (env : PureEnv) :
    MainOut PureResult × Nat :=
  if argv.length ≠ 2 then (.usage, 1)
  else
    let image_path := argv.getD 1 ""
    if fs image_path = none then (.notFound image_path, 1)
    else (.payload (extract_pure_passport_data fs image_path env).2, 0)

end PureExtractor

namespace FullExtractor

/-- `main` of `passporteye_full_extractor.py`; same shape as the pure
variant's. -/
def main (argv : List String) (fs : FS) (env : FullEnv) :
    MainOut FullResult × Nat :=
  if argv.length ≠ 2 then (.usage, 1)
  else
    let image_path := argv.getD 1 ""
    if fs image_path = none then (.notFound image_path, 1)
    else (.payload (extract_full_passport_data env), 0)

end FullExtractor

/-! ### Shared lemmas and concrete fixtures -/

/-- Unfolding equation for `cascade` on a nonempty catalog. -/
theorem cascade_cons (e : PatternEntry) (es : List PatternEntry) (s : String) :
    cascade (e :: es) s =
      match runEntry e s with
      | some d => some d
      | none => cascade es s := rfl

/-- When every pattern of a catalog prefix produced no usable result, the
cascade continues with the remaining patterns unchanged: the loop's
tier-first priority. -/
theorem cascade_append_none (a b : List PatternEntry) (s : String)
    (h : cascade a s = none) : cascade (a ++ b) s = cascade b s := by
  induction a with
  | nil => simp [cascade]
  | cons e es ih =>
    cases he : runEntry e s with
    | some d => rw [cascade_cons, he] at h; exact Option.noConfusion h
    | none =>
      rw [cascade_cons, he] at h
      rw [List.cons_append, cascade_cons, he]
      exact ih h

/-- A sample MRZ record (valid, with a two-line code). -/
def mrzSample : Mrz :=
  { valid := true, mrz_code := some "L1\nL2",
    data := { type := "P", country := "GBR", surname := "DOE",
              names := "JOHN", number := "123456789", nationality := "GBR",
              date_of_birth := "900101", sex := "M",
              expiration_date := "300101", personal_number := "" } }

/-- A file system holding a single image at "img.png". -/
def fsImg : FS :=
  fun q => if q = "img.png" then some (Img.file 0) else none

/-- A file system holding a single image at "scan.png.jpeg". -/
def fsJpeg : FS :=
  fun q => if q = "scan.png.jpeg" then some (Img.file 1) else none

/-- A file system holding a single image at "photo.jpg". -/
def fsJpg : FS :=
  fun q => if q = "photo.jpg" then some (Img.file 3) else none

/-- A file system holding a single image at "passport.png". -/
def fsMain : FS :=
  fun q => if q = "passport.png" then some (Img.file 2) else none

/-- Region OCR outcomes in which each region yields a clean bilingual date:
upper_middle → "2022-09-03", left_side → "2021-01-01",
right_side → "2020-05-05". -/
def regionsDated : RegionOutcomes :=
  { upper_middle := .ret "03 SEP /SEPT 22",
    left_side := .ret "01 JAN /JAN 21",
    right_side := .ret "05 MAY /MAY 20" }

/-- Oracle outcomes: no MRZ anywhere, all three regions OCR cleanly. -/
def envDated : PureEnv :=
  { mrzFull := .ret none, retry := .absent, regionsOpen := .ret (),
    regions := regionsDated }

/-! ### Claims -/

/-- Claim C1, counterexample.  The claim asserts that the 50/51 two-digit
year window is applied for every pattern tier and every extractor variant.
On "03 SEP /SEPT 40" (bilingual standard tier, year token 40 ≤ 50, so the
claim demands century "20" everywhere) the full extractor's standard branch
windows at 30/31 and yields 1940, while the pure extractor yields 2040: the
same tier in two variants disagrees, and the full variant contradicts the
claimed ≤ 50 → "20xx" mapping. -/
theorem C1_counterexample :
    extract_issue_date_from_text_full "03 SEP /SEPT 40" = some "1940-09-03" ∧
    extract_issue_date_from_text_full "03 SEP /SEPT 40" ≠ some "2040-09-03" ∧
    extract_issue_date_from_text_pure "03 SEP /SEPT 40" = some "2040-09-03" ∧
    (40 : Nat) ≤ 50 := by
  refine ⟨by decide, by decide, by decide, by decide⟩

/-- Claim C1 as amended: the pure and simplified extractors window two-digit
years at 50/51 in the branches that window at all (bilingual-standard and
fragmented); the full extractor windows at 30/31 in its standard month-name
branches and at 50/51 only in its fragmented branches; and the pure and
simplified extractors' labelled/plain standard patterns (indices 2–3) are
dispatched to the fragmented handler, which never windows their year token
(the captured month name lands in the year slot, e.g. "JAN-09-03"). -/
theorem C1_windowing_amended :
    extract_issue_date_from_text_pure "03 SEP /SEPT 22" = some "2022-09-03" ∧
    extract_issue_date_from_text_pure "03 SEP /SEPT 85" = some "1985-09-03" ∧
    extract_issue_date_from_text_pure "03 SEP /SEPT 40" = some "2040-09-03" ∧
    extract_issue_date_from_text_simplified "03 SEP /SEPT 40"
      = some "2040-09-03" ∧
    extract_issue_date_from_text_full "03 SEP /SEPT 40" = some "1940-09-03" ∧
    extract_issue_date_from_text_full "Gsseryserr40" = some "2040-09-03" ∧
    extract_issue_date_from_text_pure "Date of issue 01 JAN 40"
      = some "JAN-09-03" := by
  refine ⟨by decide, by decide, by decide, by decide, by decide, by decide,
    by decide⟩

/-- Claim C2, counterexample.  The claim asserts that for text containing
both a clean standard-format match ("Date of issue 01 JAN 22") and a
fragmented match ("Gsseryserr23"), the cascade returns the date normalized
from the clean match (which would be "2022-01-01").  In the full extractor
the fragmented tiers are declared *before* the labelled standard tier, so
the fragmented match wins ("2023-09-03"); in the simplified extractor the
clean pattern is tried first but its match is processed by the fragmented
`else` branch, yielding "JAN-09-03" instead of the normalized clean date. -/
theorem C2_counterexample :
    extract_issue_date_from_text_full "Date of issue 01 JAN 22 Gsseryserr23"
      = some "2023-09-03" ∧
    extract_issue_date_from_text_full "Date of issue 01 JAN 22 Gsseryserr23"
      ≠ some "2022-01-01" ∧
    extract_issue_date_from_text_simplified
      "Date of issue 01 JAN 22 Gsseryserr23" = some "JAN-09-03" ∧
    extract_issue_date_from_text_simplified
      "Date of issue 01 JAN 22 Gsseryserr23" ≠ some "2022-01-01" := by
  refine ⟨by decide, by decide, by decide, by decide⟩

/-- Claim C2 as amended: patterns are tried strictly in declared order in
every variant, and a later pattern contributes only when no earlier pattern
produced a result; but only the bilingual clean patterns are declared ahead
of the fragmented tiers in *all* variants and normalize correctly.  Text
containing both a bilingual clean match and a fragmented match yields the
clean date in every variant; text whose clean match is the labelled
"Date of issue" form instead yields the fragmented date in the full variant
(fragmented tiers are declared earlier there) and the mis-normalized
"JAN-09-03" in the pure/simplified variants. -/
theorem C2_cascade_amended :
    extract_issue_date_from_text_full "03 SEP /SEPT 22 Gsseryserr23"
      = some "2022-09-03" ∧
    extract_issue_date_from_text_simplified "03 SEP /SEPT 22 Gsseryserr23"
      = some "2022-09-03" ∧
    extract_issue_date_from_text_pure "03 SEP /SEPT 22 Gsseryserr23"
      = some "2022-09-03" ∧
    extract_issue_date_from_text_full "Date of issue 01 JAN 22 Gsseryserr23"
      = some "2023-09-03" ∧
    extract_issue_date_from_text_pure "Date of issue 01 JAN 22 Gsseryserr23"
      = some "JAN-09-03" := by
  refine ⟨by decide, by decide, by decide, by decide, by decide⟩

/-- Claim C6: for any text on which the patterns declared before the
year-only fragmented pattern produce nothing and whose first
"Gsseryserr"-family match captures the year token "22", the pure extractor
returns exactly "2022-09-03" (assumed day 03, forced month 09, year windowed
from the text's 2-digit token); and the simplified and full extractors agree
on the exemplar "Gsseryserr22". -/
theorem C6_year_only_family (t : String) (ms : List PyMatch)
    (h1 : cascade (purePatterns.take 4) t = none)
    (h2 : findallP reGss t = PyMatch.pstr "22" :: ms) :
    extract_issue_date_from_text_pure t = some "2022-09-03" ∧
    extract_issue_date_from_text_simplified "Gsseryserr22"
      = some "2022-09-03" ∧
    extract_issue_date_from_text_full "Gsseryserr22" = some "2022-09-03" := by
  refine ⟨?_, by decide, by decide⟩
  have hsplit : purePatterns = purePatterns.take 4 ++ purePatterns.drop 4 :=
    (List.take_append_drop 4 purePatterns).symm
  unfold extract_issue_date_from_text_pure
  rw [hsplit, cascade_append_none _ _ _ h1]
  have hdrop : purePatterns.drop 4 =
      [⟨reGss, handleGss 50⟩, ⟨reFrag1, handleElsePure true⟩,
       ⟨reFrag2, handleElsePure true⟩] := rfl
  rw [hdrop, cascade_cons]
  have hrun : runEntry ⟨reGss, handleGss 50⟩ t = some "2022-09-03" := by
    unfold runEntry
    rw [h2]
    have hg : handleGss 50 (PyMatch.pstr "22") = some "2022-09-03" := by decide
    simp [List.findSome?, hg]
  rw [hrun]

/-- Witness for C6 at the exemplar input "Gsseryserr22". -/
theorem C6_year_only_family_witness :
    extract_issue_date_from_text_pure "Gsseryserr22" = some "2022-09-03" ∧
    extract_issue_date_from_text_simplified "Gsseryserr22"
      = some "2022-09-03" ∧
    extract_issue_date_from_text_full "Gsseryserr22" = some "2022-09-03" :=
  C6_year_only_family "Gsseryserr22" [] (by decide) (by decide)

/-- When ".png" occurs nowhere in the input, `str.replace` leaves it
unchanged. -/
theorem pyReplaceAux_pngFree (fuel : Nat) :
    ∀ s : List Char, s.length ≤ fuel → pngFree s = true →
      pyReplaceAux fuel s = s := by
  induction fuel with
  | zero => intro s _ _; cases s <;> rfl
  | succ n ih =>
    intro s hl hf
    cases s with
    | nil => rfl
    | cons c rest =>
      simp only [pngFree, Bool.and_eq_true, Bool.not_eq_true'] at hf
      simp only [pyReplaceAux, hf.1, Bool.false_eq_true, if_false]
      have hr : rest.length ≤ n := by
        simp only [List.length_cons] at hl; omega
      rw [ih rest hr hf.2]

/-- When ".png" occurs nowhere in a path, the computed temp path is the path
itself. -/
theorem pngFree_tempMrzPath (p : String) (h : pngFree p.data = true) :
    tempMrzPath p = p := by
  unfold tempMrzPath pyReplacePng
  rw [pyReplaceAux_pngFree p.data.length p.data le_rfl h]

/-- Claim C3, counterexample.  The claim asserts the transient crop file is
deleted on every path of the cropped-band retry, including a raising
`read_mrz`.  With the input at "img.png" and a raising retry, the `except`
clause is entered before the cleanup statement, and the crop file
"img_temp_mrz.png" is still present afterwards. -/
theorem C3_counterexample :
    (mrzFallback fsImg "img.png" (RetryOutcome.raises "boom")).1
      "img_temp_mrz.png" = some (Img.cropBottom (Img.file 0)) ∧
    (mrzFallback fsImg "img.png" (RetryOutcome.raises "boom")).1
      "img_temp_mrz.png" ≠ none := by
  refine ⟨by decide, by decide⟩

/-- Claim C3 as amended: the orchestrator performs exactly one cropped-band
retry, and the transient crop file is deleted afterwards when the retried
MRZ read *returns* (whether it found an MRZ or not); when the retried read
raises, the swallowed exception skips the cleanup and the crop file is left
on disk. -/
theorem C3_fallback_cleanup_amended (fs : FS) (path : String) (img : Img)
    (m : Mrz) (msg : String) (h : fs path = some img) :
    (mrzFallback fs path RetryOutcome.absent).1 (tempMrzPath path) = none ∧
    (mrzFallback fs path (RetryOutcome.found m)).1 (tempMrzPath path)
      = none ∧
    (mrzFallback fs path (RetryOutcome.found m)).2 = some m ∧
    (mrzFallback fs path (RetryOutcome.raises msg)).1 (tempMrzPath path)
      = some (Img.cropBottom img) := by
  unfold mrzFallback
  rw [h]
  simp [fsSet]

/-- Witness for C3 as amended, at the file system `fsImg`. -/
theorem C3_fallback_cleanup_witness :
    (mrzFallback fsImg "img.png" RetryOutcome.absent).1
      (tempMrzPath "img.png") = none ∧
    (mrzFallback fsImg "img.png" (RetryOutcome.found mrzSample)).1
      (tempMrzPath "img.png") = none ∧
    (mrzFallback fsImg "img.png" (RetryOutcome.found mrzSample)).2
      = some mrzSample ∧
    (mrzFallback fsImg "img.png" (RetryOutcome.raises "boom")).1
      (tempMrzPath "img.png") = some (Img.cropBottom (Img.file 0)) :=
  C3_fallback_cleanup_amended fsImg "img.png" (Img.file 0) mrzSample "boom"
    (by decide)

/-- Claim C9, counterexample.  The claim quantifies over every input path
that does not *end* in ".png".  The path "scan.png.jpeg" does not end in
".png", yet `replace('.png', …)` substitutes the interior occurrence, the
temp path differs from the input path, and the input file is left entirely
unchanged by the fallback — it is neither overwritten nor deleted. -/
theorem C9_counterexample :
    endsWithPng "scan.png.jpeg" = false ∧
    tempMrzPath "scan.png.jpeg" = "scan_temp_mrz.png.jpeg" ∧
    tempMrzPath "scan.png.jpeg" ≠ "scan.png.jpeg" ∧
    (mrzFallback fsJpeg "scan.png.jpeg" RetryOutcome.absent).1 "scan.png.jpeg"
      = some (Img.file 1) := by
  refine ⟨by decide, by decide, by decide, by decide⟩

/-- Claim C9 as amended: for every input path in which ".png" does not occur
as a substring at all, the computed temp path equals the original path, so
the fallback overwrites the caller's input file with the bottom-band crop
and then deletes it (when the retried read returns; a raising retry leaves
the crop in the input's place) — the original input is not left unchanged. -/
theorem C9_temp_path_amended (path : String) (fs : FS) (img : Img)
    (msg : String) (h0 : pngFree path.data = true)
    (h1 : fs path = some img) :
    tempMrzPath path = path ∧
    (mrzFallback fs path RetryOutcome.absent).1 path = none ∧
    (mrzFallback fs path (RetryOutcome.raises msg)).1 path
      = some (Img.cropBottom img) := by
  have ht : tempMrzPath path = path := pngFree_tempMrzPath path h0
  refine ⟨ht, ?_, ?_⟩
  · unfold mrzFallback
    rw [h1]
    simp [fsSet, ht]
  · unfold mrzFallback
    rw [h1]
    simp [fsSet, ht]

/-- Witness for C9 as amended, at the path "photo.jpg". -/
theorem C9_temp_path_witness :
    tempMrzPath "photo.jpg" = "photo.jpg" ∧
    (mrzFallback fsJpg "photo.jpg" RetryOutcome.absent).1 "photo.jpg"
      = none ∧
    (mrzFallback fsJpg "photo.jpg" (RetryOutcome.raises "err")).1 "photo.jpg"
      = some (Img.cropBottom (Img.file 3)) :=
  C9_temp_path_amended "photo.jpg" fsJpg (Img.file 3) "err" (by decide)
    (by decide)

/-- The three labelled candidates of the claim's example, in
sample-generation order irrelevant to the preference (left, upper-middle,
right). -/
def exampleCandidates : List RegionInfo :=
  [⟨"left_side", "", some "2021-01-01"⟩,
   ⟨"upper_middle", "", some "2022-09-03"⟩,
   ⟨"right_side", "", some "2020-05-05"⟩]

/-- Claim C4: the arbiter selects the first candidate labelled
`upper_middle` whenever one is present and otherwise the first candidate in
sample-generation order; on the example candidate set the arbitrated date is
"2022-09-03", and the orchestrator carries that single date into the
result's `issue_date` (an `Option` field, so at most one issue date, chosen
by the total function `bestCandidate`). -/
theorem C4_arbitration (cands : List RegionInfo) (c : RegionInfo)
    (h : cands.find? (fun x => x.region == "upper_middle") = some c) :
    bestCandidate cands = some c ∧
    (∀ cs : List RegionInfo,
      cs.find? (fun x => x.region == "upper_middle") = none →
        bestCandidate cs = cs.head?) ∧
    bestCandidate exampleCandidates
      = some ⟨"upper_middle", "", some "2022-09-03"⟩ ∧
    (extract_pure_passport_data fsMain "passport.png" envDated).2.issue_date
      = some "2022-09-03" := by
  refine ⟨?_, ?_, by decide, by decide⟩
  · unfold bestCandidate
    rw [h]
  · intro cs hcs
    unfold bestCandidate
    rw [hcs]

/-- Witness for C4 at the example candidate set. -/
theorem C4_arbitration_witness :
    exampleCandidates.find? (fun x => x.region == "upper_middle")
      = some ⟨"upper_middle", "", some "2022-09-03"⟩ ∧
    bestCandidate exampleCandidates
      = some ⟨"upper_middle", "", some "2022-09-03"⟩ :=
  ⟨by decide,
   (C4_arbitration exampleCandidates ⟨"upper_middle", "", some "2022-09-03"⟩
     (by decide)).1⟩

/-- Region OCR outcomes in which the upper-middle region's text contains no
recoverable date while the left region's does. -/
def regionsC5 : RegionOutcomes :=
  { upper_middle := .ret "no date here",
    left_side := .ret "03 SEP /SEPT 21",
    right_side := .ret "" }

/-- Oracle outcomes for the C5 counterexample run: no MRZ anywhere, region
OCR as in `regionsC5`. -/
def envC5 : PureEnv :=
  { mrzFull := .ret none, retry := .absent, regionsOpen := .ret (),
    regions := regionsC5 }

/-- Claim C5, counterexample.  The claim asserts every element of the
candidate set handed to the arbiter carries a date.  Both branches of the
source's `if issue_date:` append the region record, so a region with no
recovered date still contributes a dateless entry; the arbiter then selects
the dateless `upper_middle` entry over `left_side`'s actual date and the
final result's `issue_date` is `None`. -/
theorem C5_counterexample :
    extract_issue_date_from_image_regions (CallOutcome.ret ()) regionsC5
      = [⟨"upper_middle", "no date here", none⟩,
         ⟨"left_side", "03 SEP /SEPT 21", some "2021-09-03"⟩,
         ⟨"right_side", "", none⟩] ∧
    (extract_pure_passport_data fsMain "passport.png" envC5).2.issue_date
      = none := by
  refine ⟨by decide, by decide⟩

/-- Claim C5 as amended: the candidate list handed to arbitration contains
one entry per region whose OCR returned, *whether or not* a date was found;
when the upper-middle region's text yields no date while another region's
yields one, the arbiter still selects the dateless upper-middle entry and
the selected date is `none`. -/
theorem C5_dateless_candidates_amended (ro : RegionOutcomes)
    (tum tls trs : String) (d : String)
    (h1 : ro.upper_middle = .ret tum) (h2 : ro.left_side = .ret tls)
    (h3 : ro.right_side = .ret trs)
    (h4 : extract_issue_date_from_text_pure tum = none)
    (h5 : extract_issue_date_from_text_pure tls = some d) :
    extract_issue_date_from_image_regions (CallOutcome.ret ()) ro
      = [⟨"upper_middle", String.mk ((pyStrip tum).data.take 200), none⟩,
         ⟨"left_side", String.mk ((pyStrip tls).data.take 200), some d⟩,
         ⟨"right_side", String.mk ((pyStrip trs).data.take 200),
          extract_issue_date_from_text_pure trs⟩] ∧
    bestCandidate (extract_issue_date_from_image_regions
        (CallOutcome.ret ()) ro)
      = some ⟨"upper_middle", String.mk ((pyStrip tum).data.take 200),
              none⟩ := by
  have hlist : extract_issue_date_from_image_regions (CallOutcome.ret ()) ro
      = [⟨"upper_middle", String.mk ((pyStrip tum).data.take 200), none⟩,
         ⟨"left_side", String.mk ((pyStrip tls).data.take 200), some d⟩,
         ⟨"right_side", String.mk ((pyStrip trs).data.take 200),
          extract_issue_date_from_text_pure trs⟩] := by
    unfold extract_issue_date_from_image_regions
    rw [h1, h2, h3]
    simp [List.filterMap, h4, h5]
  refine ⟨hlist, ?_⟩
  rw [hlist]
  unfold bestCandidate
  simp [List.find?]

/-- Witness for C5 as amended, at the `regionsC5` outcomes. -/
theorem C5_dateless_candidates_witness :
    extract_issue_date_from_image_regions (CallOutcome.ret ()) regionsC5
      = [⟨"upper_middle",
          String.mk ((pyStrip "no date here").data.take 200), none⟩,
         ⟨"left_side",
          String.mk ((pyStrip "03 SEP /SEPT 21").data.take 200),
          some "2021-09-03"⟩,
         ⟨"right_side", String.mk ((pyStrip "").data.take 200),
          extract_issue_date_from_text_pure ""⟩] ∧
    bestCandidate (extract_issue_date_from_image_regions
        (CallOutcome.ret ()) regionsC5)
      = some ⟨"upper_middle",
              String.mk ((pyStrip "no date here").data.take 200), none⟩ :=
  C5_dateless_candidates_amended regionsC5 "no date here" "03 SEP /SEPT 21"
    "" "2021-09-03" (by decide) (by decide) (by decide) (by decide)
    (by decide)

/-- Full-variant oracle outcomes: MRZ present, `Image.open` raising in the
OCR stage, mixed per-configuration outcomes. -/
def envC7 : FullEnv :=
  { mrzFull := .ret (some mrzSample), imageOpen := .exn "io down",
    ocr1 := .ret "a", ocr2 := .exn "x", ocr3 := .ret "b" }

/-- Claim C7: a raising OCR configuration is swallowed locally — the
collected samples are exactly those of the remaining configurations, in
order — and a failure of the OCR stage as a whole (a raising `Image.open`)
is recorded in the result's `ocr_error` diagnostic field while the MRZ
portion of the result is kept intact, rather than aborting the
extraction. -/
theorem C7_ocr_failure_isolation (xs ys : List (CallOutcome String))
    (msg : String) (env : FullEnv) (m0 : Option Mrz) (emsg : String)
    (h1 : env.mrzFull = .ret m0) (h2 : env.imageOpen = .exn emsg) :
    collectTexts (xs ++ CallOutcome.exn msg :: ys)
      = collectTexts xs ++ collectTexts ys ∧
    extract_full_passport_data env
      = { fullMrzBase m0 with ocr_error := some emsg } := by
  constructor
  · simp [collectTexts, List.filterMap_append, List.filterMap_cons]
  · unfold extract_full_passport_data
    rw [h1, h2]

/-- Witness for C7 at the `envC7` outcomes. -/
theorem C7_ocr_failure_isolation_witness :
    collectTexts ([CallOutcome.ret "a"] ++
        CallOutcome.exn "x" :: [CallOutcome.ret "b"])
      = collectTexts [CallOutcome.ret "a"] ++
        collectTexts [CallOutcome.ret "b"] ∧
    extract_full_passport_data envC7
      = { fullMrzBase (some mrzSample) with ocr_error := some "io down" } :=
  C7_ocr_failure_isolation [CallOutcome.ret "a"] [CallOutcome.ret "b"] "x"
    envC7 (some mrzSample) "io down" rfl rfl

/-- Oracle outcomes simulating the MRZ/OCR libraries being broken: the very
first `read_mrz` call raises. -/
def envExn : PureEnv :=
  { mrzFull := .exn "lib down", retry := .absent, regionsOpen := .ret (),
    regions := regionsDated }

/-- A file system holding a single image at "exists.png". -/
def fsExists : FS :=
  fun q => if q = "exists.png" then some (Img.file 4) else none

/-- A full-variant oracle assignment with no MRZ and empty OCR. -/
def fenvQuiet : FullEnv :=
  { mrzFull := .ret none, imageOpen := .ret (), ocr1 := .ret "",
    ocr2 := .ret "", ocr3 := .ret "" }

/-- Claim C8: a missing input file yields the error JSON and exit code 1,
and the outcome is independent of every external capability (none is
invoked); a wrong argument count likewise exits 1; on an existing file the
process exits 0 even when extraction fails internally — the raised exception
is converted into a `success:false`, zero-confidence payload. -/
theorem C8_main_exit_codes (prog p1 p2 : String) (fs : FS)
    (env env2 : PureEnv) (fenv : FullEnv) (img : Img) (msg : String)
    (h1 : fs p1 = none) (h2 : fs p2 = some img)
    (h3 : env.mrzFull = .exn msg) :
    PureExtractor.main [prog, p1] fs env = (.notFound p1, 1) ∧
    PureExtractor.main [prog, p1] fs env
      = PureExtractor.main [prog, p1] fs env2 ∧
    FullExtractor.main [prog, p1] fs fenv = (.notFound p1, 1) ∧
    PureExtractor.main [prog] fs env = (.usage, 1) ∧
    PureExtractor.main [prog, p2] fs env
      = (.payload { pureInit with
          error := some ("Pure PassportEye extraction failed: " ++ msg) },
         0) ∧
    ({ pureInit with
       error := some ("Pure PassportEye extraction failed: " ++ msg) }
        : PureResult).success = false ∧
    ({ pureInit with
       error := some ("Pure PassportEye extraction failed: " ++ msg) }
        : PureResult).confidence = 0 := by
  have hnf : ∀ e : PureEnv, PureExtractor.main [prog, p1] fs e
      = (.notFound p1, 1) := by
    intro e
    unfold PureExtractor.main
    simp [h1]
  have hful : FullExtractor.main [prog, p1] fs fenv = (.notFound p1, 1) := by
    unfold FullExtractor.main
    simp [h1]
  refine ⟨hnf env, (hnf env).trans (hnf env2).symm, hful, ?_, ?_, rfl, rfl⟩
  · unfold PureExtractor.main
    simp
  · unfold PureExtractor.main
    simp only [List.length_cons, List.length_nil, h2]
    unfold extract_pure_passport_data
    rw [h3]
    simp [h2]

/-- Witness for C8 at a concrete file system and raising environment. -/
theorem C8_main_exit_codes_witness :
    PureExtractor.main ["prog", "missing.png"] fsExists envExn
      = (.notFound "missing.png", 1) ∧
    PureExtractor.main ["prog", "missing.png"] fsExists envExn
      = PureExtractor.main ["prog", "missing.png"] fsExists envDated ∧
    FullExtractor.main ["prog", "missing.png"] fsExists fenvQuiet
      = (.notFound "missing.png", 1) ∧
    PureExtractor.main ["prog"] fsExists envExn = (.usage, 1) ∧
    PureExtractor.main ["prog", "exists.png"] fsExists envExn
      = (.payload { pureInit with
          error := some ("Pure PassportEye extraction failed: "
            ++ "lib down") },
         0) ∧
    ({ pureInit with
       error := some ("Pure PassportEye extraction failed: " ++ "lib down") }
        : PureResult).success = false ∧
    ({ pureInit with
       error := some ("Pure PassportEye extraction failed: " ++ "lib down") }
        : PureResult).confidence = 0 :=
  C8_main_exit_codes "prog" "missing.png" "exists.png" fsExists envExn
    envDated fenvQuiet (Img.file 4) "lib down" (by decide) (by decide) rfl

/-- Claim C10: in a run whose primary `read_mrz` returns (rather than
raises), the result's `success` flag is set exactly when an MRZ record was
obtained (directly or through the cropped-band fallback), and the confidence
is zero exactly when no record was obtained — the full variant behaves the
same way against its (fallback-free) MRZ outcome; concretely, a run with no
MRZ anywhere but a recovered OCR issue date ends with `success = false`,
`confidence = 0`, and a populated `issue_date`. -/
theorem C10_success_confidence_mrz (fs : FS) (path : String) (env : PureEnv)
    (m0 : Option Mrz) (fenv : FullEnv) (f0 : Option Mrz)
    (h : env.mrzFull = .ret m0) (hf : fenv.mrzFull = .ret f0) :
    (extract_pure_passport_data fs path env).2.success
      = (resolveMrz fs path m0 env.retry).2.isSome ∧
    ((extract_pure_passport_data fs path env).2.confidence = 0 ↔
      (resolveMrz fs path m0 env.retry).2 = none) ∧
    (extract_full_passport_data fenv).success = f0.isSome ∧
    ((extract_full_passport_data fenv).confidence = 0 ↔ f0 = none) ∧
    (extract_pure_passport_data fsMain "passport.png" envDated).2.success
      = false ∧
    (extract_pure_passport_data fsMain "passport.png" envDated).2.confidence
      = 0 ∧
    (extract_pure_passport_data fsMain "passport.png" envDated).2.issue_date
      = some "2022-09-03" := by
  have hconf : ∀ m : Mrz, mrzConfidence m ≠ 0 := by
    intro m
    unfold mrzConfidence
    cases m.valid <;> norm_num
  refine ⟨?_, ?_, ?_, ?_, by decide, by decide, by decide⟩
  · unfold extract_pure_passport_data
    simp only [h]
    cases hr : (resolveMrz fs path m0 env.retry).2 with
    | none =>
      simp only [hr]
      cases hb : bestCandidate (extract_issue_date_from_image_regions
          env.regionsOpen env.regions) <;>
        simp [hb, pureInit]
    | some m =>
      simp only [hr]
      cases hb : bestCandidate (extract_issue_date_from_image_regions
          env.regionsOpen env.regions) <;>
        simp [hb, applyMrzPure]
  · unfold extract_pure_passport_data
    simp only [h]
    cases hr : (resolveMrz fs path m0 env.retry).2 with
    | none =>
      simp only [hr]
      cases hb : bestCandidate (extract_issue_date_from_image_regions
          env.regionsOpen env.regions) <;>
        simp [hb, pureInit]
    | some m =>
      simp only [hr]
      cases hb : bestCandidate (extract_issue_date_from_image_regions
          env.regionsOpen env.regions) <;>
        simp [hb, applyMrzPure, hconf m]
  · unfold extract_full_passport_data
    simp only [hf]
    cases ho : fenv.imageOpen with
    | exn m1 =>
      simp only [ho]
      cases f0 <;> simp [fullMrzBase, applyMrzFull, fullInit]
    | ret u =>
      simp only [ho]
      cases hd : extract_issue_date_from_text_full (String.intercalate "\n"
          (collectTexts [fenv.ocr1, fenv.ocr2, fenv.ocr3])) <;>
        cases f0 <;> simp [hd, fullMrzBase, applyMrzFull, fullInit]
  · unfold extract_full_passport_data
    simp only [hf]
    cases ho : fenv.imageOpen with
    | exn m1 =>
      simp only [ho]
      cases f0 with
      | none => simp [fullMrzBase, fullInit]
      | some m => simp [fullMrzBase, applyMrzFull, hconf m]
    | ret u =>
      simp only [ho]
      cases hd : extract_issue_date_from_text_full (String.intercalate "\n"
          (collectTexts [fenv.ocr1, fenv.ocr2, fenv.ocr3])) <;>
        cases f0 with
        | none => simp [hd, fullMrzBase, fullInit]
        | some m => simp [hd, fullMrzBase, applyMrzFull, hconf m]

/-- Witness for C10 at the concrete no-MRZ, dated-regions run. -/
theorem C10_success_confidence_witness :
    (extract_pure_passport_data fsMain "passport.png" envDated).2.success
      = (resolveMrz fsMain "passport.png" none envDated.retry).2.isSome ∧
    (extract_full_passport_data fenvQuiet).success = (none : Option Mrz).isSome ∧
    (extract_pure_passport_data fsMain "passport.png" envDated).2.issue_date
      = some "2022-09-03" := by
  have h := C10_success_confidence_mrz fsMain "passport.png" envDated none
    fenvQuiet none rfl rfl
  exact ⟨h.1, h.2.2.1, h.2.2.2.2.2.2⟩
